import Mathlib

/-!
Shallow embedding of the Survey Analyzer Streamlit application (src/app.py).

The application is a linear script: it loads a CSV/Excel file, shows
descriptive statistics, a frequency/percentage table, and — on a button
click — computes a Pearson or Spearman correlation via scipy and renders a
bilingual interpretation sentence.  Numeric values are modelled by exact
rationals; the IEEE NaN that scipy produces on degenerate input is modelled
explicitly by an `Option` layer, with Python's comparison semantics (every
comparison against NaN is false).
-/

/-- A Python float flowing through the analysis: `none` models IEEE NaN
(what scipy returns for degenerate correlation inputs); `some q` models an
ordinary finite value, in exact rational arithmetic. -/
abbrev Val := Option ℚ

/-- Python comparison `v < c` between a possibly-NaN value and a finite
literal: any comparison involving NaN evaluates to false. -/
def vltQ (v : Val) (c : ℚ) : Bool :=
  match v with
  | none => false
  | some a => decide (a < c)

/-- Python `abs` on a possibly-NaN value: `abs nan = nan`. -/
def vabs (v : Val) : Val :=
  match v with
  | none => none
  | some a => some |a|

/-- Round a rational to the nearest integer, ties to even — the rounding
Python and numpy apply when converting a value to a fixed number of decimal
digits. -/
def roundHalfEven (q : ℚ) : ℤ :=
  let f : ℤ := ⌊q⌋
  let r : ℚ := q - (f : ℚ)
  if r < 1/2 then f
  else if 1/2 < r then f + 1
  else if f % 2 = 0 then f else f + 1

/-- pandas `Series.round(2)` (line 196 of app.py): round to 2 decimal
places. -/
def round2 (q : ℚ) : ℚ := (roundHalfEven (q * 100) : ℚ) / 100

/-- Left-pad a digit string with zeros to the given width. -/
def padZeros (d : ℕ) (s : String) : String :=
  String.mk (List.replicate (d - s.length) '0') ++ s

/-- Python fixed-point formatting (format spec `.Nf`) of a finite rational:
sign, integer part, a dot, and exactly `d` fractional digits, rounding ties
to even. -/
def formatFixed (d : ℕ) (q : ℚ) : String :=
  let base : ℤ := (10 : ℤ) ^ d
  let m : ℤ := roundHalfEven (|q| * ((10 : ℚ) ^ d))
  (if q < 0 then "-" else "") ++ toString (m / base) ++ "." ++ padZeros d (toString (m % base).toNat)

/-- Python fixed-point formatting of a possibly-NaN value: NaN prints as
the three-letter string nan, as in the f-strings on lines 239-262. -/
def formatVal (d : ℕ) (v : Val) : String :=
  match v with
  | none => "nan"
  | some q => formatFixed d q

/-- Arithmetic mean of a sequence (numpy). -/
def listMean (l : List ℚ) : ℚ := l.sum / (l.length : ℚ)

/-- Centered sum of squares of a sequence — the quantity scipy's
correlation routines build their normalisation from. -/
def css (l : List ℚ) : ℚ :=
  (l.map (fun a => (a - listMean l) * (a - listMean l))).sum

/-- Centered cross-product sum of two paired sequences. -/
def ccp (x y : List ℚ) : ℚ :=
  ((x.zip y).map (fun p => (p.1 - listMean x) * (p.2 - listMean y))).sum

/-- True iff every entry equals the first — scipy's zero-variance
(constant-input) test; vacuously true for empty and singleton input. -/
def isConstant (l : List ℚ) : Bool :=
  match l with
  | [] => true
  | a :: t => t.all (fun b => decide (b = a))

/-- Square root on rationals: exact whenever the argument is the square of
a rational (every case the theorems below evaluate), and a high-precision
integer-square-root approximation otherwise; nonpositive input gives 0. -/
def ratSqrt (q : ℚ) : ℚ :=
  if q ≤ 0 then 0
  else
    let n := q.num.toNat
    let d := q.den
    if Nat.sqrt n * Nat.sqrt n = n ∧ Nat.sqrt d * Nat.sqrt d = d then
      (Nat.sqrt n : ℚ) / (Nat.sqrt d : ℚ)
    else
      (Nat.sqrt (n * d * 1000000000000000000000000) : ℚ) / ((d : ℚ) * 1000000000000)

/-- numpy sign. -/
def sgnQ (a : ℚ) : ℚ := if a < 0 then -1 else if a = 0 then 0 else 1

/-- A Python exception escaping the handler; the application installs no
try/except, so such an exception aborts the run with a traceback. -/
inductive PyError where
  | valueError : String → PyError
  deriving DecidableEq

/-- Two-sided p-value of scipy.stats.pearsonr as documented: a Beta/t
distribution tail with n-2 degrees of freedom.  It is exactly 0 when the
(clamped) coefficient has absolute value 1 — the only finite case any
theorem below evaluates; for coefficients strictly between -1 and 1 the true
value is transcendental, and this model returns the placeholder 1 on that
branch, which no theorem in this file relies on. -/
def pearsonPValue (r : ℚ) : ℚ := if 1 ≤ |r| then 0 else 1

/-- Two-sided p-value of scipy.stats.spearmanr (t-distribution
approximation), modelled exactly as `pearsonPValue`: exactly 0 at absolute
coefficient 1, a placeholder 1 on the transcendental branch that no theorem
relies on. -/
def spearmanPValue (r : ℚ) : ℚ := if 1 ≤ |r| then 0 else 1

/-- Pearson product-moment coefficient of two non-degenerate sequences: the
centered cross-product normalised by the geometric mean of the centered
sums of squares, clamped to the interval from -1 to 1 exactly as scipy
clamps its floating-point result. -/
def pearsonCoef (x y : List ℚ) : ℚ :=
  max (min (ccp x y / ratSqrt (css x * css y)) 1) (-1)

/-- Model of `scipy.stats.pearsonr` on two 1-D sequences, mirroring the
library's checks in their order: unequal lengths raise ValueError; length
below 2 raises ValueError; a constant (zero-variance) input produces the
pair (nan, nan) — scipy's ConstantInputWarning is a warning, not an
exception; length exactly 2 returns the product of the difference signs
with p-value 1; otherwise the clamped coefficient with its p-value. -/
def pearsonr (x y : List ℚ) : Except PyError (Val × Val) :=
  if x.length ≠ y.length then .error (.valueError "x and y must have the same length.")
  else if x.length < 2 then .error (.valueError "x and y must have length at least 2.")
  else if isConstant x || isConstant y then .ok (none, none)
  else if x.length = 2 then
    .ok (some (sgnQ (x.getD 1 0 - x.getD 0 0) * sgnQ (y.getD 1 0 - y.getD 0 0)), some 1)
  else
    .ok (some (pearsonCoef x y), some (pearsonPValue (pearsonCoef x y)))

/-- scipy.stats.rankdata with average ranks for ties. -/
def rankdata (l : List ℚ) : List ℚ :=
  l.map (fun v => (l.countP (fun a => decide (a < v)) : ℚ) + ((l.count v : ℚ) + 1) / 2)

/-- Model of `scipy.stats.spearmanr` on two 1-D sequences: unequal lengths
raise ValueError; a constant input — which includes every sequence of
length below 2 — yields the pair (nan, nan) with only a warning; otherwise
Pearson's formula applied to the average ranks, clamped to [-1, 1]. -/
def spearmanr (x y : List ℚ) : Except PyError (Val × Val) :=
  if x.length ≠ y.length then .error (.valueError "x and y must have the same length.")
  else if isConstant x || isConstant y then .ok (none, none)
  else
    .ok (some (pearsonCoef (rankdata x) (rankdata y)),
         some (spearmanPValue (pearsonCoef (rankdata x) (rankdata y))))

/-- Lines 244-250 of app.py: the chained conditional classifying the
absolute value of the coefficient into a strength label.  The comparisons
follow Python float semantics via `vltQ`, so a NaN coefficient falls
through every branch. -/
def strength (r : Val) : String :=
  if vltQ (vabs r) (2/10) then "very weak"
  else if vltQ (vabs r) (4/10) then "weak"
  else if vltQ (vabs r) (6/10) then "moderate"
  else if vltQ (vabs r) (8/10) then "strong"
  else "very strong"

/-- Line 252 of app.py: significant exactly when p is strictly below the
hard-coded 0.05; a NaN p-value compares false and is labelled not
significant. -/
def sig (p : Val) : String :=
  if vltQ p (5/100) then "significant" else "not significant"

/-- Lines 254-263 of app.py: the narrative sentence.  The code branches on
equality with the single string Indonesia and renders the English template
in every other case. -/
def renderNarrative (language xName yName strengthLabel sigLabel : String) (p : Val) : String :=
  if language = "Indonesia" then
    "Terdapat **hubungan " ++ strengthLabel ++ "** antara **" ++ xName ++ "** dan **" ++
      yName ++ "** dengan nilai p **" ++ sigLabel ++ "** (p = " ++ formatVal 4 p ++ ")."
  else
    "There is a **" ++ strengthLabel ++ " relationship** between **" ++ xName ++ "** and **" ++
      yName ++ "**, and the result is **" ++ sigLabel ++ "** (p = " ++ formatVal 4 p ++ ")."

/-- Keys of the LANG dictionary (lines 75-112 of app.py): the registered
locales. -/
def registeredLanguages : List String := ["English", "Indonesia"]

/-- Everything the run-analysis button handler writes to the page for one
click: the two result lines, the two classification labels, and the
narrative sentence. -/
structure AnalysisOutput where
  rLine : String
  pLine : String
  strengthLabel : String
  sigLabel : String
  narrative : String
  deriving DecidableEq

/-- Lines 231-263 of app.py: the run-analysis button handler.  It calls
scipy's pearsonr when the method selector reads Pearson and spearmanr
otherwise, then formats the coefficient to 3 and the p-value to 4 decimal
places, classifies strength and significance, and renders the narrative. -/
def runAnalysis (xName yName : String) (x y : List ℚ) (method language : String) :
    Except PyError AnalysisOutput :=
  match (if method = "Pearson" then pearsonr x y else spearmanr x y) with
  | .error e => .error e
  | .ok (r, p) =>
    .ok { rLine := "**Correlation (r)** : " ++ formatVal 3 r
        , pLine := "**p-value** : " ++ formatVal 4 p
        , strengthLabel := strength r
        , sigLabel := sig p
        , narrative := renderNarrative language xName yName (strength r) (sig p) p }

/-- The distinct values of a column in ascending order —
`value_counts().sort_index()` lists each distinct value once, ascending. -/
def sortedValues (col : List ℚ) : List ℚ := List.insertionSort (· ≤ ·) col.dedup

/-- Lines 191-197 of app.py: the frequency table.  One row per distinct
value in ascending order, carrying the occurrence count and the percentage
(count over length, times 100) rounded to 2 decimal places. -/
def frequencyTable (col : List ℚ) : List (ℚ × ℕ × ℚ) :=
  (sortedValues col).map
    (fun v => (v, col.count v, round2 (((col.count v : ℚ) / (col.length : ℚ)) * 100)))

/-- Line 224 of app.py: the fixed allow-list for the X selector. -/
def xAllowList : List String := ["x1", "x2", "x3", "x4", "x5", "x_total"]

/-- Line 225 of app.py: the fixed allow-list for the Y selector. -/
def yAllowList : List String := ["y1", "y2", "y3", "y4", "y5", "y_total"]

/-- Line 224 of app.py: numeric columns whose lowercased name is in the X
allow-list, in column order. -/
def xVars (numericCols : List String) : List String :=
  numericCols.filter (fun c => decide (c.toLower ∈ xAllowList))

/-- Line 225 of app.py: numeric columns whose lowercased name is in the Y
allow-list, in column order. -/
def yVars (numericCols : List String) : List String :=
  numericCols.filter (fun c => decide (c.toLower ∈ yAllowList))

/-- Which pandas reader the load line dispatches to. -/
inductive ParserKind where
  | excel
  | csv
  deriving DecidableEq

/-- Line 149 of app.py: the accepted-type list of the upload widget. -/
def uploaderAcceptedTypes : List String := ["csv", "xlsx", "xls"]

/-- Python `str.endswith` for a single suffix: the suffix's characters are
a suffix of the string's characters. -/
def pyEndsWith (s suffix : String) : Bool :=
  suffix.data.isSuffixOf s.data

/-- Line 155 of app.py: `pd.read_excel` when the uploaded file name ends
with xlsx or xls, `pd.read_csv` for every other name. -/
def chooseParser (fileName : String) : ParserKind :=
  if pyEndsWith fileName "xlsx" || pyEndsWith fileName "xls" then ParserKind.excel
  else ParserKind.csv

/-! ### Helper lemmas -/

/-- Rounding an integer-valued rational returns that integer. -/
lemma roundHalfEven_intCast (z : ℤ) : roundHalfEven (z : ℚ) = z := by
  simp [roundHalfEven]

/-- Evaluation rule for `roundHalfEven` once the floor of the argument is
pinned down by two rational bounds. -/
lemma roundHalfEven_eq_of_bounds (q : ℚ) (f : ℤ) (h1 : (f : ℚ) ≤ q) (h2 : q < f + 1) :
    roundHalfEven q =
      if q - f < 1/2 then f else if 1/2 < q - f then f + 1 else if f % 2 = 0 then f
      else f + 1 := by
  have hf : ⌊q⌋ = f := by rw [Int.floor_eq_iff]; exact ⟨h1, h2⟩
  simp [roundHalfEven, hf]

/-- On a finite coefficient the strength classifier is a plain chain of
rational comparisons. -/
lemma strength_ite (a : ℚ) : strength (some a) =
    if |a| < 2/10 then "very weak"
    else if |a| < 4/10 then "weak"
    else if |a| < 6/10 then "moderate"
    else if |a| < 8/10 then "strong"
    else "very strong" := by
  simp [strength, vabs, vltQ]

/-- On a finite p-value the significance classifier is a single strict
comparison. -/
lemma sig_ite (a : ℚ) : sig (some a) = if a < 5/100 then "significant"
    else "not significant" := by
  simp [sig, vltQ]

/-- The coefficient 1 formats to 1.000 under the 3-decimal format spec. -/
lemma formatVal_three_one : formatVal 3 (some 1) = "1.000" := by
  show formatFixed 3 (1 : ℚ) = "1.000"
  unfold formatFixed
  rw [show |(1 : ℚ)| * (10 : ℚ) ^ 3 = ((1000 : ℤ) : ℚ) by norm_num,
    roundHalfEven_intCast, if_neg (by norm_num)]
  rfl

/-- The p-value 0 formats to 0.0000 under the 4-decimal format spec. -/
lemma formatVal_four_zero : formatVal 4 (some 0) = "0.0000" := by
  show formatFixed 4 (0 : ℚ) = "0.0000"
  unfold formatFixed
  rw [show |(0 : ℚ)| * (10 : ℚ) ^ 4 = ((0 : ℤ) : ℚ) by norm_num,
    roundHalfEven_intCast, if_neg (by norm_num)]
  rfl

/-- The p-value 1/100 formats to 0.0100 under the 4-decimal format spec. -/
lemma formatVal_four_centi : formatVal 4 (some (1/100)) = "0.0100" := by
  show formatFixed 4 (1/100 : ℚ) = "0.0100"
  unfold formatFixed
  rw [show |(1/100 : ℚ)| * (10 : ℚ) ^ 4 = ((100 : ℤ) : ℚ) by
      rw [abs_of_nonneg (by norm_num : (0 : ℚ) ≤ 1/100)]; norm_num,
    roundHalfEven_intCast, if_neg (by norm_num)]
  rfl

/-- The strength label of the exact coefficient 1. -/
lemma strength_some_one : strength (some 1) = "very strong" := by
  rw [strength_ite]; norm_num

/-- The significance label of the exact p-value 0. -/
lemma sig_some_zero : sig (some 0) = "significant" := by
  rw [sig_ite]; norm_num

/-- Exact evaluation of the Pearson call on the linear end-to-end data. -/
lemma pearson_linear_eval :
    pearsonr [1, 2, 3, 4, 5] [2, 4, 6, 8, 10] = Except.ok (some 1, some 0) := by
  have h1 : css ([1, 2, 3, 4, 5] : List ℚ) = 10 := by norm_num [css, listMean]
  have h2 : css ([2, 4, 6, 8, 10] : List ℚ) = 40 := by norm_num [css, listMean]
  have h3 : ccp [1, 2, 3, 4, 5] [2, 4, 6, 8, 10] = 20 := by
    norm_num [ccp, listMean, List.zip]
  have h4 : ratSqrt ((10 : ℚ) * 40) = 20 := by
    rw [show ((10 : ℚ) * 40) = 400 by norm_num]
    unfold ratSqrt
    rw [if_neg (by norm_num), show (400 : ℚ).num.toNat = 400 from rfl,
      show (400 : ℚ).den = 1 from rfl]
    norm_num
  have hco : pearsonCoef [1, 2, 3, 4, 5] [2, 4, 6, 8, 10] = 1 := by
    unfold pearsonCoef
    rw [h1, h2, h3, h4]
    norm_num
  have hpv : pearsonPValue 1 = 0 := by norm_num [pearsonPValue]
  unfold pearsonr
  rw [if_neg (by decide), if_neg (by decide), if_neg (by decide), if_neg (by decide),
    hco, hpv]

/-! ### Claims -/

/-- C1: the spec requires `computeCorrelation` to fail with
ConstantInputError when either sequence has zero variance.  The code does
not: on x = [1,1,1], y = [2,3,4] both the Pearson and the Spearman paths
return a NaN pair and the handler renders a full result — a very strong,
not significant narrative — instead of raising any error. -/
theorem constant_input_displays_result :
    runAnalysis "x" "y" [1, 1, 1] [2, 3, 4] "Pearson" "English" =
      Except.ok ⟨"**Correlation (r)** : nan", "**p-value** : nan", "very strong",
        "not significant",
        "There is a **very strong relationship** between **x** and **y**, and the result is **not significant** (p = nan)."⟩ ∧
    runAnalysis "x" "y" [1, 1, 1] [2, 3, 4] "Spearman" "English" =
      Except.ok ⟨"**Correlation (r)** : nan", "**p-value** : nan", "very strong",
        "not significant",
        "There is a **very strong relationship** between **x** and **y**, and the result is **not significant** (p = nan)."⟩ :=
  ⟨rfl, rfl⟩

/-- C2: the spec requires `renderNarrative` to fail with
UnsupportedLanguageError on an unregistered language tag.  The code instead
branches only on equality with Indonesia and silently renders the English
template for every other tag: the tag French is not registered, yet it
produces exactly the English locale's sentence. -/
theorem unregistered_language_silent_fallback :
    ¬ ("French" ∈ registeredLanguages) ∧
    renderNarrative "French" "x" "y" "weak" "significant" (some (1/100)) =
      renderNarrative "English" "x" "y" "weak" "significant" (some (1/100)) ∧
    renderNarrative "French" "x" "y" "weak" "significant" (some (1/100)) =
      "There is a **weak relationship** between **x** and **y**, and the result is **significant** (p = 0.0100)." := by
  refine ⟨by decide, rfl, ?_⟩
  unfold renderNarrative
  rw [if_neg (by decide), formatVal_four_centi]
  rfl

/-- C3: the spec requires `computeCorrelation` to fail with
InsufficientDataError on fewer than 2 paired observations.  The code does
not have that error: with the single pair x = [1], y = [2] the Spearman
path renders a full NaN-driven result, and the Pearson path propagates
scipy's raw ValueError. -/
theorem single_pair_no_insufficient_data_error :
    runAnalysis "x" "y" [1] [2] "Spearman" "English" =
      Except.ok ⟨"**Correlation (r)** : nan", "**p-value** : nan", "very strong",
        "not significant",
        "There is a **very strong relationship** between **x** and **y**, and the result is **not significant** (p = nan)."⟩ ∧
    runAnalysis "x" "y" [1] [2] "Pearson" "English" =
      Except.error (PyError.valueError "x and y must have length at least 2.") :=
  ⟨rfl, rfl⟩

/-- C4: the strength classifier thresholds on the absolute value of the
coefficient with left-inclusive half-open intervals, a boundary value goes
to the higher bucket, every absolute value from 0.8 up is very strong, and
the sign of the coefficient is ignored. -/
theorem strength_bucket_bounds (r : ℚ) :
    (|r| < 2/10 → strength (some r) = "very weak") ∧
    (2/10 ≤ |r| → |r| < 4/10 → strength (some r) = "weak") ∧
    (4/10 ≤ |r| → |r| < 6/10 → strength (some r) = "moderate") ∧
    (6/10 ≤ |r| → |r| < 8/10 → strength (some r) = "strong") ∧
    (8/10 ≤ |r| → strength (some r) = "very strong") ∧
    strength (some r) = strength (some (-r)) := by
  refine ⟨fun h => ?_, fun h1 h2 => ?_, fun h1 h2 => ?_, fun h1 h2 => ?_, fun h => ?_, ?_⟩
  · rw [strength_ite, if_pos h]
  · rw [strength_ite, if_neg (by linarith), if_pos h2]
  · rw [strength_ite, if_neg (by linarith), if_neg (by linarith), if_pos h2]
  · rw [strength_ite, if_neg (by linarith), if_neg (by linarith), if_neg (by linarith),
      if_pos h2]
  · rw [strength_ite, if_neg (by linarith), if_neg (by linarith), if_neg (by linarith),
      if_neg (by linarith)]
  · rw [strength_ite, strength_ite, abs_neg]

/-- Boundary and sign checks for the strength buckets at concrete
coefficients: 0.2 is weak, -0.5 is moderate, 0.8 is very strong. -/
theorem strength_bucket_bounds_check :
    strength (some (2/10)) = "weak" ∧ strength (some (-(5/10))) = "moderate" ∧
    strength (some (8/10)) = "very strong" := by
  have habs : |(-(5/10) : ℚ)| = 5/10 := by
    rw [abs_neg, abs_of_nonneg] <;> norm_num
  refine ⟨(strength_bucket_bounds (2/10)).2.1 ?_ ?_,
    (strength_bucket_bounds (-(5/10))).2.2.1 ?_ ?_,
    (strength_bucket_bounds (8/10)).2.2.2.2.1 ?_⟩
  · rw [abs_of_nonneg] <;> norm_num
  · rw [abs_of_nonneg] <;> norm_num
  · rw [habs]; norm_num
  · rw [habs]; norm_num
  · rw [abs_of_nonneg] <;> norm_num

/-- Spec-worded significance classifier with a configurable alpha (spec
section 4.1); the code's `sig` is this classifier at the hard-coded default
alpha of 0.05. -/
def classifySignificanceSpec (p alpha : ℚ) : String :=
  if p < alpha then "significant" else "not significant"

/-- C5: significance is decided by a strict comparison of the p-value with
alpha — significant exactly when the p-value is strictly below alpha, and a
p-value equal to alpha is not significant; the code instantiates alpha at
its default 0.05. -/
theorem significance_strict (p alpha : ℚ) :
    (p < alpha → classifySignificanceSpec p alpha = "significant") ∧
    (alpha ≤ p → classifySignificanceSpec p alpha = "not significant") ∧
    classifySignificanceSpec p p = "not significant" ∧
    sig (some p) = classifySignificanceSpec p (5/100) := by
  refine ⟨fun h => ?_, fun h => ?_, ?_, ?_⟩
  · unfold classifySignificanceSpec; rw [if_pos h]
  · unfold classifySignificanceSpec; rw [if_neg (not_lt.mpr h)]
  · unfold classifySignificanceSpec; rw [if_neg (lt_irrefl p)]
  · rw [sig_ite]; rfl

/-- Significance checks at the spec's concrete examples: p = 0.0499 is
significant at alpha 0.05, and p = 0.05 is not. -/
theorem significance_strict_check :
    classifySignificanceSpec (499/10000) (5/100) = "significant" ∧
    classifySignificanceSpec (5/100) (5/100) = "not significant" ∧
    sig (some (5/100)) = "not significant" := by
  refine ⟨(significance_strict (499/10000) (5/100)).1 (by norm_num),
    (significance_strict (5/100) (5/100)).2.1 (by norm_num), ?_⟩
  rw [(significance_strict (5/100) (5/100)).2.2.2]
  exact (significance_strict (5/100) (5/100)).2.1 (by norm_num)

/-- C6: on x = [1,2,3,4,5], y = [2,4,6,8,10] with the Pearson method and
English language, the handler produces the coefficient line 1.000, the
p-value line 0.0000, a very strong and significant classification, and
exactly the specified English narrative with the p-value formatted to 4
decimal places. -/
theorem pearson_linear_end_to_end :
    runAnalysis "x" "y" [1, 2, 3, 4, 5] [2, 4, 6, 8, 10] "Pearson" "English" =
      Except.ok ⟨"**Correlation (r)** : 1.000", "**p-value** : 0.0000", "very strong",
        "significant",
        "There is a **very strong relationship** between **x** and **y**, and the result is **significant** (p = 0.0000)."⟩ := by
  unfold runAnalysis
  rw [if_pos rfl, pearson_linear_eval]
  show Except.ok (⟨"**Correlation (r)** : " ++ formatVal 3 (some 1),
    "**p-value** : " ++ formatVal 4 (some 0), strength (some 1), sig (some 0),
    renderNarrative "English" "x" "y" (strength (some 1)) (sig (some 0))
      (some 0)⟩ : AnalysisOutput) = _
  rw [formatVal_three_one, formatVal_four_zero, strength_some_one, sig_some_zero]
  unfold renderNarrative
  rw [if_neg (by decide), formatVal_four_zero]
  rfl

/-- C7: the frequency table lists one row per distinct value in strictly
ascending order of value; each row carries the exact occurrence count and
that count over the column length, times 100, rounded to 2 decimal places;
on the column [1,1,2,3,3,3] the rows are exactly (1, 2, 33.33), (2, 1,
16.67) and (3, 3, 50.00). -/
theorem frequency_table_rows (col : List ℚ) :
    ((frequencyTable col).map Prod.fst).Sorted (· < ·) ∧
    (∀ t, t ∈ frequencyTable col →
      t.2.1 = col.count t.1 ∧
      t.2.2 = round2 (((col.count t.1 : ℚ) / (col.length : ℚ)) * 100) ∧ t.1 ∈ col) ∧
    (∀ v, v ∈ col → ∃ c p, (v, c, p) ∈ frequencyTable col) ∧
    frequencyTable [1, 1, 2, 3, 3, 3] =
      [(1, 2, 3333/100), (2, 1, 1667/100), (3, 3, 50)] := by
  refine ⟨?_, ?_, ?_, ?_⟩
  · have hmap : (frequencyTable col).map Prod.fst = sortedValues col := by
      unfold frequencyTable
      rw [List.map_map]
      exact List.map_id' _
    rw [hmap]
    have hsorted : (sortedValues col).Sorted (· ≤ ·) :=
      List.sorted_insertionSort _ _
    have hnodup : (sortedValues col).Nodup :=
      (List.perm_insertionSort _ _).nodup_iff.mpr col.nodup_dedup
    exact hsorted.lt_of_le hnodup
  · intro t ht
    rcases List.mem_map.mp ht with ⟨v, hv, rfl⟩
    refine ⟨rfl, rfl, ?_⟩
    have hv' : v ∈ col.dedup := by
      simpa [sortedValues] using hv
    exact List.mem_dedup.mp hv'
  · intro v hv
    refine ⟨col.count v, round2 (((col.count v : ℚ) / (col.length : ℚ)) * 100),
      List.mem_map_of_mem _ ?_⟩
    simp [sortedValues, List.mem_dedup, hv]
  · have hs : sortedValues [1, 1, 2, 3, 3, 3] = [1, 2, 3] := by decide
    have hc1 : ([1, 1, 2, 3, 3, 3] : List ℚ).count 1 = 2 := by decide
    have hc2 : ([1, 1, 2, 3, 3, 3] : List ℚ).count 2 = 1 := by decide
    have hc3 : ([1, 1, 2, 3, 3, 3] : List ℚ).count 3 = 3 := by decide
    have hlen : ([1, 1, 2, 3, 3, 3] : List ℚ).length = 6 := rfl
    have hr1 : round2 ((((2 : ℕ) : ℚ) / ((6 : ℕ) : ℚ)) * 100) = 3333/100 := by
      rw [show ((((2 : ℕ) : ℚ) / ((6 : ℕ) : ℚ)) * 100) = 10000/300 by push_cast; ring]
      unfold round2
      rw [show ((10000 : ℚ)/300 * 100) = 10000/3 by norm_num,
        roundHalfEven_eq_of_bounds (10000/3 : ℚ) 3333 (by norm_num) (by norm_num)]
      norm_num
    have hr2 : round2 ((((1 : ℕ) : ℚ) / ((6 : ℕ) : ℚ)) * 100) = 1667/100 := by
      rw [show ((((1 : ℕ) : ℚ) / ((6 : ℕ) : ℚ)) * 100) = 10000/600 by push_cast; ring]
      unfold round2
      rw [show ((10000 : ℚ)/600 * 100) = 5000/3 by norm_num,
        roundHalfEven_eq_of_bounds (5000/3 : ℚ) 1666 (by norm_num) (by norm_num)]
      norm_num
    have hr3 : round2 ((((3 : ℕ) : ℚ) / ((6 : ℕ) : ℚ)) * 100) = 50 := by
      rw [show ((((3 : ℕ) : ℚ) / ((6 : ℕ) : ℚ)) * 100) = ((50 : ℤ) : ℚ) by push_cast; ring]
      unfold round2
      rw [show (((50 : ℤ) : ℚ) * 100) = ((5000 : ℤ) : ℚ) by push_cast; ring,
        roundHalfEven_intCast]
      norm_num
    unfold frequencyTable
    rw [hs]
    simp only [List.map_cons, List.map_nil, hc1, hc2, hc3, hlen]
    rw [hr1, hr2, hr3]

/-- Concrete frequency-table checks on the column [1,1,2,3,3,3]: the row of
value 3 counts 3 occurrences, and value 2 has a row. -/
theorem frequency_table_rows_check :
    (3 : ℕ) = ([1, 1, 2, 3, 3, 3] : List ℚ).count 3 ∧
    (∃ c p, ((2 : ℚ), c, p) ∈ frequencyTable [1, 1, 2, 3, 3, 3]) := by
  have h4 : frequencyTable [1, 1, 2, 3, 3, 3] =
      [(1, 2, 3333/100), (2, 1, 1667/100), (3, 3, 50)] :=
    (frequency_table_rows [1, 1, 2, 3, 3, 3]).2.2.2
  refine ⟨?_, (frequency_table_rows [1, 1, 2, 3, 3, 3]).2.2.1 2 (by decide)⟩
  exact ((frequency_table_rows [1, 1, 2, 3, 3, 3]).2.1 (3, 3, (50 : ℚ))
    (by rw [h4]; decide)).1

/-- C8: a column is offered in the X selector exactly when it is a numeric
column whose lowercased name is in the fixed x allow-list, and in the Y
selector exactly when its lowercased name is in the fixed y allow-list. -/
theorem selector_allowlist (numericCols : List String) (c : String) :
    (c ∈ xVars numericCols ↔ c ∈ numericCols ∧ c.toLower ∈ xAllowList) ∧
    (c ∈ yVars numericCols ↔ c ∈ numericCols ∧ c.toLower ∈ yAllowList) := by
  constructor <;> simp [xVars, yVars, List.mem_filter]

/-- C9: a NaN coefficient fails every one of the four chained abs
comparisons, so the classifier returns very strong, and a zero-variance
input therefore yields a rendered very strong narrative rather than any
error. -/
theorem nan_coefficient_very_strong :
    vltQ (vabs none) (2/10) = false ∧ vltQ (vabs none) (4/10) = false ∧
    vltQ (vabs none) (6/10) = false ∧ vltQ (vabs none) (8/10) = false ∧
    strength none = "very strong" ∧
    runAnalysis "x" "y" [2, 2, 2] [7, 8, 9] "Pearson" "English" =
      Except.ok (⟨"**Correlation (r)** : nan", "**p-value** : nan", "very strong",
        "not significant",
        "There is a **very strong relationship** between **x** and **y**, and the result is **not significant** (p = nan)."⟩ : AnalysisOutput) :=
  ⟨rfl, rfl, rfl, rfl, rfl, rfl⟩

/-- C10: the parser choice depends only on the uploaded file name's suffix —
Excel for a name ending in xlsx or xls, CSV for every other name with no
error path — and the upload widget accepts exactly csv, xlsx and xls. -/
theorem parser_suffix_dispatch (fileName : String) :
    (chooseParser fileName = ParserKind.excel ↔
      (pyEndsWith fileName "xlsx" || pyEndsWith fileName "xls") = true) ∧
    (chooseParser fileName = ParserKind.csv ↔
      (pyEndsWith fileName "xlsx" || pyEndsWith fileName "xls") = false) ∧
    (chooseParser fileName = ParserKind.excel ∨ chooseParser fileName = ParserKind.csv) ∧
    chooseParser "report.pdf" = ParserKind.csv ∧
    chooseParser "survey.xlsx" = ParserKind.excel ∧
    chooseParser "survey.xls" = ParserKind.excel ∧
    chooseParser "survey.csv" = ParserKind.csv ∧
    uploaderAcceptedTypes = ["csv", "xlsx", "xls"] := by
  refine ⟨?_, ?_, ?_, by decide, by decide, by decide, by decide, rfl⟩ <;>
    by_cases h : (pyEndsWith fileName "xlsx" || pyEndsWith fileName "xls") = true <;>
    simp [chooseParser, h]
